import Mathlib

/-
Shallow embedding of mpas_analysis/ocean/time_series_transport.py.

The module defines four classes:
  * TimeSeriesTransport          (the parent task; its constructor builds the
                                  subtask graph),
  * ComputeTransportSubtask      (per-year computation of transport through
                                  transects),
  * CombineTransportSubtask      (concatenation of the per-year files),
  * PlotTransportSubtask         (one plot per transect).

Pure functions of the source are translated into Lean functions; the effect of
`run_task` on the file system is made explicit as an action value (skip or
write).  Machine floats are modelled as rationals; NetCDF datasets are modelled
as records of index functions and month metadata.
-/

/-- Python format directive 04d: decimal digits of a natural number, zero padded
on the left to a width of four. -/
def format04 (n : Nat) : String :=
  let s := toString n
  if s.length < 4 then String.mk (List.replicate (4 - s.length) '0') ++ s else s

/-- File path of a transport time series, mirroring the format string
transport_{:04d}-{:04d}.nc applied after the output directory. -/
def transportFileName (outputDirectory : String) (startYear endYear : Nat) : String :=
  outputDirectory ++ "/transport_" ++ format04 startYear ++ "-" ++ format04 endYear ++ ".nc"

/-- Python str.replace restricted to single characters, as used by
transect.replace(' ', '_'): every occurrence of a is replaced by b. -/
def pyReplaceChar (a b : Char) (s : String) : String :=
  String.map (fun c => if c = a then b else c) s

/-- Transect name with spaces replaced by underscores, the building block of
subtask, XML and image names in PlotTransportSubtask. -/
def underscoreName (transect : String) : String :=
  pyReplaceChar ' ' '_' transect

/-- Subtask name built in PlotTransportSubtask.__init__:
plotTransport_{} with the underscored transect name. -/
def plotSubtaskName (transect : String) : String :=
  "plotTransport_" ++ underscoreName transect

/-- List self.xmlFileNames assigned in PlotTransportSubtask.setup_and_check:
the single path {plotsDirectory}/transport_{}.xml. -/
def plotXmlFileNames (plotsDirectory transect : String) : List String :=
  [plotsDirectory ++ "/transport_" ++ underscoreName transect ++ ".xml"]

/-- Variable filePrefix of PlotTransportSubtask.run_task:
transport_{} with the underscored transect name. -/
def plotFileStem (transect : String) : String :=
  "transport_" ++ underscoreName transect

/-- Variable outFileName of PlotTransportSubtask.run_task:
{plotsDirectory}/{filePrefix}.png. -/
def plotOutFileName (plotsDirectory transect : String) : String :=
  plotsDirectory ++ "/" ++ plotFileStem transect ++ ".png"

/-- Configuration values read by ComputeTransportSubtask.__init__ when sizing
its parallelism: the execute/parallelTaskCount option, the task's
subprocessCount and daskThreads options, and multiprocessing.cpu_count(). -/
structure ParallelConfig where
  parallelTaskCount : Nat
  taskSubprocessCount : Nat
  taskDaskThreads : Nat
  cpuCount : Nat

/-- Attribute self.subprocessCount set by ComputeTransportSubtask.__init__. -/
def computeSubprocessCount (c : ParallelConfig) : Nat :=
  min c.parallelTaskCount c.taskSubprocessCount

/-- Attribute self.daskThreads set by ComputeTransportSubtask.__init__. -/
def computeDaskThreads (c : ParallelConfig) : Nat :=
  min c.cpuCount c.taskDaskThreads

/-- Subtasks constructed by TimeSeriesTransport.__init__, identified by their
constructor arguments: the transect-masks subtask, the per-year compute
subtasks, the combine subtask and the per-transect plot subtasks. -/
inductive Subtask where
  | masks : Subtask
  | compute (startYear endYear : Nat) : Subtask
  | combine (startYears endYears : List Nat) : Subtask
  | plot (transect : String) (transectIndex : Nat) : Subtask
deriving DecidableEq, Repr

/-- List years of TimeSeriesTransport.__init__: range(startYear, endYear + 1). -/
def transportYears (startYear endYear : Nat) : List Nat :=
  List.range' startYear (endYear + 1 - startYear)

/-- Variable combineSubtask of TimeSeriesTransport.__init__: the single
CombineTransportSubtask, created with startYears and endYears both equal to
the years list. -/
def transportCombineSubtask (startYear endYear : Nat) : Subtask :=
  Subtask.combine (transportYears startYear endYear) (transportYears startYear endYear)

/-- Subtasks passed to self.add_subtask by TimeSeriesTransport.__init__, in
order: the masks subtask, one compute subtask per year, then one plot subtask
per entry of transectsToPlot.  The combine subtask is created but never passed
to add_subtask. -/
def transportAddedSubtasks (startYear endYear : Nat) (transectsToPlot : List String) :
    List Subtask :=
  [Subtask.masks]
    ++ (transportYears startYear endYear).map (fun y => Subtask.compute y y)
    ++ (List.enum transectsToPlot).map (fun p => Subtask.plot p.2 p.1)

/-- Run-after constraints recorded while TimeSeriesTransport.__init__ runs, as
pairs (task, prerequisite).  Per year: the compute subtask runs after the masks
subtask (recorded both by ComputeTransportSubtask.__init__ itself and by the
parent loop; run_after stores the constraint once) and the combine subtask runs
after the compute subtask.  Then each plot subtask runs after the combine
subtask. -/
def transportRunAfterEdges (startYear endYear : Nat) (transectsToPlot : List String) :
    List (Subtask × Subtask) :=
  ((transportYears startYear endYear).flatMap
      (fun y => [(Subtask.compute y y, Subtask.masks),
                 (transportCombineSubtask startYear endYear, Subtask.compute y y)]))
    ++ (List.enum transectsToPlot).map
        (fun p => (Subtask.plot p.2 p.1, transportCombineSubtask startYear endYear))

/-- Rank of a subtask in the dependency layering: masks before compute before
combine before plot. -/
def subtaskRank : Subtask → Nat
  | Subtask.masks => 0
  | Subtask.compute _ _ => 1
  | Subtask.combine _ _ => 2
  | Subtask.plot _ _ => 3

/-- Step relation of the run-after graph: a runs directly after b. -/
def RunsAfterStep (edges : List (Subtask × Subtask)) (a b : Subtask) : Prop :=
  (a, b) ∈ edges

/-- Existence of a dependency cycle: a nonempty run-after path from some
subtask back to itself. -/
def HasDependencyCycle (edges : List (Subtask × Subtask)) : Prop :=
  ∃ s, Relation.TransGen (RunsAfterStep edges) s s

/-- Boolean recognizing the masks subtask. -/
def isMasksSubtask : Subtask → Bool
  | Subtask.masks => true
  | _ => false

/-- Boolean recognizing a compute subtask. -/
def isComputeSubtask : Subtask → Bool
  | Subtask.compute _ _ => true
  | _ => false

/-- Boolean recognizing a combine subtask. -/
def isCombineSubtask : Subtask → Bool
  | Subtask.combine _ _ => true
  | _ => false

/-- Boolean recognizing a plot subtask. -/
def isPlotSubtask : Subtask → Bool
  | Subtask.plot _ _ => true
  | _ => false

/-- One month of model output, as loaded from one timeSeriesStatsMonthlyOutput
file: the calendar year and month of the time slice, and the fields the
transport computation reads.  Arrays are index functions (cell or edge index,
then vertical level); fields that a simulation may not have written carry a
presence flag, modelling dataset membership tests such as
'timeMonthly_avg_normalTransportVelocity' in dsIn. -/
structure MonthSlice where
  year : Int
  month : Int
  layerThickness : Nat → Nat → Rat
  normalVelocity : Nat → Nat → Rat
  hasNormalTransportVelocity : Bool
  normalTransportVelocity : Nat → Nat → Rat
  hasNormalGMBolusVelocity : Bool
  normalGMBolusVelocity : Nat → Nat → Rat

/-- Month slice with no data, used as the out-of-range default of total list
indexing. -/
def emptySlice : MonthSlice :=
  { year := 0
    month := 0
    layerThickness := fun _ _ => 0
    normalVelocity := fun _ _ => 0
    hasNormalTransportVelocity := false
    normalTransportVelocity := fun _ _ => 0
    hasNormalGMBolusVelocity := false
    normalGMBolusVelocity := fun _ _ => 0 }

/-- Mesh fields read from the restart file: the edge lengths dvEdge and the
one-based indices cellsOnEdge of the two cells adjacent to each edge. -/
structure Mesh where
  nCells : Nat
  dvEdge : Nat → Rat
  cellsOnEdge1 : Nat → Int
  cellsOnEdge2 : Nat → Int

/-- Positional indexing of xarray applied to a signed index over a dimension of
size n: a negative index counts from the end, as happens to cellsOnEdge - 1 at
boundary edges where cellsOnEdge is 0. -/
def xarrayIndex (n : Nat) (i : Int) : Nat :=
  if i < 0 then (i + n).toNat else i.toNat

/-- Layer thickness on an edge, line by line from
0.5*dsIn.timeMonthly_avg_layerThickness.isel(nCells=(dsMesh.cellsOnEdge-1)).sum(dim=TWO):
half the sum of timeMonthly_avg_layerThickness at the two adjacent cells. -/
def edgeLayerThickness (mesh : Mesh) (s : MonthSlice) (e k : Nat) : Rat :=
  (1 / 2) *
    (s.layerThickness (xarrayIndex mesh.nCells (mesh.cellsOnEdge1 e - 1)) k +
     s.layerThickness (xarrayIndex mesh.nCells (mesh.cellsOnEdge2 e - 1)) k)

/-- Modelled from the spec: constants.m3ps_to_Sv of
mpas_analysis.shared.constants, whose module is not part of the sources; the
conversion factor from cubic metres per second to Sverdrups, with
1 Sv = 10^6 m^3/s. -/
def m3ps_to_Sv : Rat :=
  1 / 1000000

/-- Variable list assembled by ComputeTransportSubtask.run_task from the first
input file: layer thickness always, then the transport velocity when the file
has it, else normal plus Bolus velocity when the file has the latter, else the
normal (advection) velocity alone. -/
def transportVariableList (first : MonthSlice) : List String :=
  if first.hasNormalTransportVelocity then
    ["timeMonthly_avg_layerThickness", "timeMonthly_avg_normalTransportVelocity"]
  else if first.hasNormalGMBolusVelocity then
    ["timeMonthly_avg_layerThickness", "timeMonthly_avg_normalVelocity",
     "timeMonthly_avg_normalGMBolusVelocity"]
  else
    ["timeMonthly_avg_layerThickness", "timeMonthly_avg_normalVelocity"]

/-- Velocity variable vel chosen by ComputeTransportSubtask.run_task from the
concatenated dataset dsIn, which on the success path holds exactly the
variables of transportVariableList: the transport velocity when present in
dsIn, else the sum of normal and Bolus velocities when the Bolus velocity is
present, else the normal velocity. -/
def transportVelocity (slices : List MonthSlice) (t e k : Nat) : Rat :=
  let vl := transportVariableList (slices.headD emptySlice)
  let s := slices.getD t emptySlice
  if "timeMonthly_avg_normalTransportVelocity" ∈ vl then
    s.normalTransportVelocity e k
  else if "timeMonthly_avg_normalGMBolusVelocity" ∈ vl then
    s.normalVelocity e k + s.normalGMBolusVelocity e k
  else
    s.normalVelocity e k

/-- Nested loop of ComputeTransportSubtask.run_task over self.transectsToPlot:
for each requested transect, scan the mask file's transect names for the first
equal name; on a hit append its index and the name, otherwise only warn.
Returns (transectIndices, outTransectNames). -/
def selectTransects : List String → List String → List Nat × List String
  | [], _ => ([], [])
  | t :: rest, names =>
    let tail := selectTransects rest names
    match names.findIdx? (fun n => n == t) with
    | some i => (i :: tail.1, t :: tail.2)
    | none => tail

/-- State read by ComputeTransportSubtask.run_task: the dataset dimensions, the
mesh from the restart file, the sorted input files as month slices, the mask
file's transect names and edge mask signs (indexed by transect then edge), the
requested transects, and the current per-year output file: whether it exists
and the (year, month) pair at each of its time indices. -/
structure ComputeState where
  nEdges : Nat
  nVertLevels : Nat
  mesh : Mesh
  inputSlices : List MonthSlice
  maskTransectNames : List String
  maskSigns : Nat → Nat → Rat
  transectsToPlot : List String
  outputExists : Bool
  outTimes : List (Int × Int)

/-- Validity test of the existing per-year output file, mirroring the loop over
range(dsOut.dims[Time]): the file exists and every output time index has some
input file whose year and month both match (count_nonzero of the conjunction
mask is nonzero). -/
def outputValid (st : ComputeState) : Bool :=
  st.outputExists &&
    st.outTimes.all (fun tm =>
      st.inputSlices.any (fun s => s.year == tm.1 && s.month == tm.2))

/-- Dataset dsOut written by ComputeTransportSubtask.run_task: the transport
table (time index by selected transect), its units and description attributes,
the transectNames coordinate and the (year, month) of each time index. -/
structure TransportOutput where
  transport : List (List Rat)
  unitsAttr : String
  descriptionAttr : String
  transectNames : List String
  times : List (Int × Int)
deriving DecidableEq, Repr

/-- Effect of a run_task call on one output file: either leave the file system
alone or write one dataset. -/
inductive TaskAction (α : Type) where
  | skip : TaskAction α
  | write (out : α) : TaskAction α
deriving DecidableEq, Repr

/-- Content of the written output file after a run_task action: a write
replaces the file, a skip leaves the previous content. -/
def applyAction {α : Type} (act : TaskAction α) (previous : Option α) : Option α :=
  match act with
  | TaskAction.skip => previous
  | TaskAction.write out => some out

/-- Transport value at one time index and one selected transect, line by line
from transport = constants.m3ps_to_Sv * (edgeSign * vel * h * dvEdge).sum over
the nEdges and nVertLevels dimensions; maskIndex is the transect's index into
the mask file. -/
def transportValue (st : ComputeState) (t maskIndex : Nat) : Rat :=
  m3ps_to_Sv *
    ∑ e ∈ Finset.range st.nEdges, ∑ k ∈ Finset.range st.nVertLevels,
      st.maskSigns maskIndex e * transportVelocity st.inputSlices t e k *
        edgeLayerThickness st.mesh (st.inputSlices.getD t emptySlice) e k *
        st.mesh.dvEdge e

/-- Body of ComputeTransportSubtask.run_task after the input files are listed:
when the existing output is valid the task returns early without writing;
otherwise it selects the requested transects present in the mask file and
writes the transport dataset with units Sv. -/
def computeRunTask (st : ComputeState) : TaskAction TransportOutput :=
  if outputValid st then TaskAction.skip
  else
    let sel := selectTransects st.transectsToPlot st.maskTransectNames
    TaskAction.write
      { transport :=
          (List.range st.inputSlices.length).map (fun t =>
            (List.range sel.1.length).map (fun j => transportValue st t (sel.1.getD j 0)))
        unitsAttr := "Sv"
        descriptionAttr := "Transport through transects"
        transectNames := sel.2
        times := st.inputSlices.map (fun s => (s.year, s.month)) }

/-- Transport value as claim C5 words it: m3ps_to_Sv times the sum over the
nEdges and nVertLevels dimensions of edgeSign * vel * h * dvEdge, where h is
half the sum of timeMonthly_avg_layerThickness on the two cells adjacent to
each edge and vel is timeMonthly_avg_normalTransportVelocity when present,
otherwise normal plus Bolus velocity when the Bolus velocity is present,
otherwise the normal velocity alone. -/
def specTransportValue (st : ComputeState) (t maskIndex : Nat) : Rat :=
  let first := st.inputSlices.headD emptySlice
  let s := st.inputSlices.getD t emptySlice
  let vel : Nat → Nat → Rat :=
    if first.hasNormalTransportVelocity then s.normalTransportVelocity
    else if first.hasNormalGMBolusVelocity then
      fun e k => s.normalVelocity e k + s.normalGMBolusVelocity e k
    else s.normalVelocity
  m3ps_to_Sv *
    ∑ e ∈ Finset.range st.nEdges, ∑ k ∈ Finset.range st.nVertLevels,
      st.maskSigns maskIndex e * vel e k *
        edgeLayerThickness st.mesh s e k * st.mesh.dvEdge e

/-- Content of the time series files seen by CombineTransportSubtask: the file
system maps a path to the rows of the dataset stored there, one row per time
index (none when the path does not exist). -/
def TimeSeriesFS : Type :=
  String → Option (List (List Rat))

/-- Output path of CombineTransportSubtask.run_task:
transport_{startYears[0]}-{endYears[-1]}.nc in the output directory. -/
def combineOutFileName (outputDirectory : String) (startYears endYears : List Nat) : String :=
  transportFileName outputDirectory (startYears.headD 0) (endYears.getLastD 0)

/-- Input paths of CombineTransportSubtask.run_task: one per pair of
zip(startYears, endYears), in list order. -/
def combineInFileNames (outputDirectory : String) (startYears endYears : List Nat) :
    List String :=
  (startYears.zip endYears).map (fun p => transportFileName outputDirectory p.1 p.2)

/-- Effect of one CombineTransportSubtask.run_task call: either nothing, or one
write of the concatenated dataset recording which files were read. -/
inductive CombineAction where
  | skip : CombineAction
  | write (readFiles : List String) (outName : String) (rows : List (List Rat)) : CombineAction
deriving DecidableEq, Repr

/-- Body of CombineTransportSubtask.run_task: when the combined file does not
exist, open the per-year files and concatenate them along the Time dimension in
list order (open_mfdataset with combine nested over concat_dim Time), then
write the result; when it exists, do nothing. -/
def combineRunTask (outputDirectory : String) (startYears endYears : List Nat)
    (fs : TimeSeriesFS) : CombineAction :=
  let outName := combineOutFileName outputDirectory startYears endYears
  if (fs outName).isSome then CombineAction.skip
  else
    let names := combineInFileNames outputDirectory startYears endYears
    CombineAction.write names outName ((names.map (fun n => (fs n).getD [])).flatten)

/-- File system after a CombineTransportSubtask.run_task action. -/
def combineApply (act : CombineAction) (fs : TimeSeriesFS) : TimeSeriesFS :=
  match act with
  | CombineAction.skip => fs
  | CombineAction.write _ outName rows => fun n => if n = outName then some rows else fs n

/-- State read by ComputeTransportSubtask.setup_and_check: whether the
timeseriesstatsmonthly analysis member is enabled, the files of the restart
stream, and the config_land_ice_flux_mode namelist option (which the method
never reads). -/
structure SetupState where
  analysisEnabled : Bool
  restartPaths : List String
  landIceFluxMode : String

/-- Result of ComputeTransportSubtask.setup_and_check: success stores
self.restartFileName; failure is either the analysis-member check of the base
machinery or the IOError raised for a missing restart file. -/
inductive SetupResult where
  | ok (restartFileName : String) : SetupResult
  | analysisDisabledError : SetupResult
  | ioError (msg : String) : SetupResult
deriving DecidableEq, Repr

/-- Modelled from the spec: runStreams.readpath applied to the restart stream,
from mpas_analysis.shared.io, whose module is not part of the sources; it
returns the list of restart paths and raises ValueError when the stream has no
file. -/
def readpathRestart (paths : List String) : Except Unit (List String) :=
  if paths.isEmpty then Except.error () else Except.ok paths

/-- Body of ComputeTransportSubtask.setup_and_check: the base-class checks run
first (modelled by the enabled flag); then readpath of the restart stream is
indexed at 0, a ValueError being converted to an IOError.  No namelist option
beyond those of the base class is examined. -/
def computeSetupAndCheck (st : SetupState) : SetupResult :=
  if st.analysisEnabled = false then SetupResult.analysisDisabledError
  else
    match readpathRestart st.restartPaths with
    | Except.error _ =>
        SetupResult.ioError
          "No MPAS-O restart file found: need at least one restart file for transport calculations"
    | Except.ok paths => SetupResult.ok (paths.headD "")

/-- Concrete month slice used by the witnesses: January of year one, with the
transport velocity present. -/
def sliceA : MonthSlice :=
  { year := 1
    month := 1
    layerThickness := fun _ _ => 2
    normalVelocity := fun _ _ => 5
    hasNormalTransportVelocity := true
    normalTransportVelocity := fun _ _ => 1
    hasNormalGMBolusVelocity := false
    normalGMBolusVelocity := fun _ _ => 0 }

/-- Concrete month slice used by the witnesses: February of year one. -/
def sliceB : MonthSlice :=
  { sliceA with month := 2 }

/-- Concrete mesh used by the witnesses: two cells, one edge between them. -/
def meshA : Mesh :=
  { nCells := 2
    dvEdge := fun _ => 3
    cellsOnEdge1 := fun _ => 1
    cellsOnEdge2 := fun _ => 2 }

/-- Concrete compute state used by the witnesses: one input month, one transect
requested and present, and an existing output covering January of year one. -/
def stateA : ComputeState :=
  { nEdges := 1
    nVertLevels := 1
    mesh := meshA
    inputSlices := [sliceA]
    maskTransectNames := ["Drake Passage"]
    maskSigns := fun _ _ => 1
    transectsToPlot := ["Drake Passage"]
    outputExists := true
    outTimes := [(1, 1)] }

/-- Concrete compute state used by the witnesses: like stateA but with no
existing output file, so that run_task recomputes. -/
def stateB : ComputeState :=
  { stateA with outputExists := false, outTimes := [] }

/-- Concrete file system used by the witnesses: no file exists. -/
def fsEmpty : TimeSeriesFS :=
  fun _ => none

/-- Concrete setup state used by the witnesses: the analysis member is enabled
and one restart file is present. -/
def setupA : SetupState :=
  { analysisEnabled := true
    restartPaths := ["mpaso.rst.0002-01-01_00000.nc"]
    landIceFluxMode := "standalone" }

/-- String appends of the two file-name formats agree: appending the directory,
then the literal slash-and-stem text, equals appending the directory, a slash,
and the stem. -/
theorem string_stem_merge (dir u ext : String) :
    dir ++ "/transport_" ++ u ++ ext = dir ++ "/" ++ ("transport_" ++ u) ++ ext := by
  rw [show ("/transport_" : String) = "/" ++ "transport_" from rfl]
  simp only [String.append_assoc]

/-- C6: ComputeTransportSubtask.__init__ sets subprocessCount to the minimum of
the execute/parallelTaskCount option and the task's subprocessCount option, and
daskThreads to the minimum of the machine's CPU count and the task's
daskThreads option, so subprocessCount never exceeds parallelTaskCount and
daskThreads never exceeds the CPU count. -/
theorem computeSubtask_parallel_bounds (c : ParallelConfig) :
    computeSubprocessCount c = min c.parallelTaskCount c.taskSubprocessCount ∧
    computeDaskThreads c = min c.cpuCount c.taskDaskThreads ∧
    computeSubprocessCount c ≤ c.parallelTaskCount ∧
    computeDaskThreads c ≤ c.cpuCount :=
  ⟨rfl, rfl, Nat.min_le_left _ _, Nat.min_le_left _ _⟩

/-- C7: for every transect name, PlotTransportSubtask uses the name with spaces
replaced by underscores to form its subtask name plotTransport_..., its single
XML file name transport_....xml in the plots directory, and its single PNG file
name transport_....png in the plots directory, so each plotted transect yields
exactly one image file and one XML file with matching prefixes. -/
theorem plot_names_from_transect (plotsDirectory transect : String) :
    plotSubtaskName transect = "plotTransport_" ++ underscoreName transect ∧
    plotXmlFileNames plotsDirectory transect =
      [plotsDirectory ++ "/" ++ plotFileStem transect ++ ".xml"] ∧
    (plotXmlFileNames plotsDirectory transect).length = 1 ∧
    plotOutFileName plotsDirectory transect =
      plotsDirectory ++ "/" ++ plotFileStem transect ++ ".png" ∧
    plotFileStem transect = "transport_" ++ underscoreName transect := by
  refine ⟨rfl, ?_, rfl, rfl, rfl⟩
  show [plotsDirectory ++ "/transport_" ++ underscoreName transect ++ ".xml"] = _
  rw [string_stem_merge]
  rfl

/-- C9: ComputeTransportSubtask.setup_and_check raises IOError exactly when the
restart stream yields no file (the ValueError of readpath being converted);
otherwise it stores the first restart path, and it reads nothing of
config_land_ice_flux_mode, so its result never depends on that option. -/
theorem setupAndCheck_restart_behavior (st : SetupState)
    (hen : st.analysisEnabled = true) :
    ((∃ msg, computeSetupAndCheck st = SetupResult.ioError msg) ↔ st.restartPaths = []) ∧
    (∀ p rest, st.restartPaths = p :: rest →
      computeSetupAndCheck st = SetupResult.ok p) ∧
    (∀ mode, computeSetupAndCheck { st with landIceFluxMode := mode } =
      computeSetupAndCheck st) := by
  refine ⟨?_, ?_, ?_⟩
  · rcases hpath : st.restartPaths with _ | ⟨p, rest⟩ <;>
      simp [computeSetupAndCheck, readpathRestart, hen, hpath]
  · intro p rest hpath
    simp [computeSetupAndCheck, readpathRestart, hen, hpath]
  · intro mode
    simp [computeSetupAndCheck, readpathRestart, hen]

/-- Witness for C9 at a concrete setup state with one restart file. -/
theorem setupAndCheck_restart_behavior_witness :
    setupA.analysisEnabled = true ∧
    (((∃ msg, computeSetupAndCheck setupA = SetupResult.ioError msg) ↔
        setupA.restartPaths = []) ∧
      (∀ p rest, setupA.restartPaths = p :: rest →
        computeSetupAndCheck setupA = SetupResult.ok p) ∧
      (∀ mode, computeSetupAndCheck { setupA with landIceFluxMode := mode } =
        computeSetupAndCheck setupA)) :=
  ⟨rfl, setupAndCheck_restart_behavior setupA rfl⟩

/-- C3: CombineTransportSubtask.run_task skips exactly when the combined file
transport_{startYears[0]}-{endYears[-1]}.nc exists; when it does not, the task
writes that file with the rows of the per-year files concatenated along the
Time dimension in list order, and a skip leaves the file system untouched. -/
theorem combineRunTask_behavior (outputDirectory : String)
    (startYears endYears : List Nat) (fs : TimeSeriesFS) :
    (combineRunTask outputDirectory startYears endYears fs = CombineAction.skip ↔
      (fs (combineOutFileName outputDirectory startYears endYears)).isSome = true) ∧
    ((fs (combineOutFileName outputDirectory startYears endYears)).isSome = false →
      combineRunTask outputDirectory startYears endYears fs =
        CombineAction.write (combineInFileNames outputDirectory startYears endYears)
          (combineOutFileName outputDirectory startYears endYears)
          (((combineInFileNames outputDirectory startYears endYears).map
              (fun n => (fs n).getD [])).flatten)) ∧
    (combineRunTask outputDirectory startYears endYears fs = CombineAction.skip →
      combineApply (combineRunTask outputDirectory startYears endYears fs) fs = fs) := by
  by_cases hex : (fs (combineOutFileName outputDirectory startYears endYears)).isSome = true
  · refine ⟨?_, ?_, ?_⟩
    · simp [combineRunTask, hex]
    · intro hfalse
      rw [hex] at hfalse
      cases hfalse
    · intro hskip
      rw [hskip]
      rfl
  · refine ⟨?_, ?_, ?_⟩
    · simp [combineRunTask, hex]
    · intro _
      simp [combineRunTask, hex]
    · intro hskip
      rw [hskip]
      rfl

/-- Witness for C3: on an empty file system over one year, run_task writes the
concatenation. -/
theorem combineRunTask_behavior_witness :
    (fsEmpty (combineOutFileName "out" [1] [1])).isSome = false ∧
    combineRunTask "out" [1] [1] fsEmpty =
      CombineAction.write (combineInFileNames "out" [1] [1])
        (combineOutFileName "out" [1] [1])
        (((combineInFileNames "out" [1] [1]).map (fun n => (fsEmpty n).getD [])).flatten) :=
  ⟨rfl, (combineRunTask_behavior "out" [1] [1] fsEmpty).2.1 rfl⟩

/-- Validity of the existing output, spelled as a proposition: the file exists
and every output time index appears among the input files' months. -/
theorem outputValid_iff (st : ComputeState) (hex : st.outputExists = true) :
    outputValid st = true ↔
      ∀ tm ∈ st.outTimes, ∃ s ∈ st.inputSlices, s.year = tm.1 ∧ s.month = tm.2 := by
  unfold outputValid
  rw [hex]
  simp only [Bool.true_and, List.all_eq_true, List.any_eq_true, Bool.and_eq_true, beq_iff_eq]

/-- Run_task skips exactly when the validity test passes. -/
theorem computeRunTask_eq_skip_iff (st : ComputeState) :
    computeRunTask st = TaskAction.skip ↔ outputValid st = true := by
  unfold computeRunTask
  by_cases h : outputValid st = true
  · simp [h]
  · simp [h]

/-- C1: when the per-year output file exists and every time index in it has a
matching input month, run_task returns early without writing, leaving the
existing output file unchanged. -/
theorem computeRunTask_skips_when_output_valid (st : ComputeState)
    (hex : st.outputExists = true)
    (hmatch : ∀ tm ∈ st.outTimes, ∃ s ∈ st.inputSlices, s.year = tm.1 ∧ s.month = tm.2) :
    computeRunTask st = TaskAction.skip ∧
    (∀ previous : Option TransportOutput,
      applyAction (computeRunTask st) previous = previous) := by
  have hvalid : outputValid st = true := (outputValid_iff st hex).mpr hmatch
  have hskip : computeRunTask st = TaskAction.skip :=
    (computeRunTask_eq_skip_iff st).mpr hvalid
  refine ⟨hskip, fun previous => ?_⟩
  rw [hskip]
  rfl

/-- Witness for C1 at a concrete state whose output covers January of year
one, matched by the single input slice. -/
theorem computeRunTask_skips_when_output_valid_witness :
    stateA.outputExists = true ∧
    (∀ tm ∈ stateA.outTimes, ∃ s ∈ stateA.inputSlices, s.year = tm.1 ∧ s.month = tm.2) ∧
    computeRunTask stateA = TaskAction.skip :=
  ⟨rfl, by decide,
    (computeRunTask_skips_when_output_valid stateA rfl (by decide)).1⟩

/-- C8: an existing output is treated as valid exactly when every output time
index has a matching input month; extra input months that the output lacks
never turn a skip into a recomputation. -/
theorem computeRunTask_skip_characterization (st : ComputeState)
    (hex : st.outputExists = true) :
    (computeRunTask st = TaskAction.skip ↔
      ∀ tm ∈ st.outTimes, ∃ s ∈ st.inputSlices, s.year = tm.1 ∧ s.month = tm.2) ∧
    (∀ extra : List MonthSlice, computeRunTask st = TaskAction.skip →
      computeRunTask { st with inputSlices := st.inputSlices ++ extra } =
        TaskAction.skip) := by
  constructor
  · rw [computeRunTask_eq_skip_iff, outputValid_iff st hex]
  · intro extra hskip
    rw [computeRunTask_eq_skip_iff] at hskip
    rw [outputValid_iff st hex] at hskip
    refine (computeRunTask_eq_skip_iff _).mpr ((outputValid_iff _ ?_).mpr ?_)
    · exact hex
    · intro tm htm
      obtain ⟨s, hs, hp⟩ := hskip tm htm
      exact ⟨s, List.mem_append.mpr (Or.inl hs), hp⟩

/-- Every recorded run-after edge strictly decreases the layer rank from task
to prerequisite, the key to acyclicity. -/
theorem rank_lt_of_runAfter (startYear endYear : Nat) (T : List String)
    (a b : Subtask) (h : (a, b) ∈ transportRunAfterEdges startYear endYear T) :
    subtaskRank b < subtaskRank a := by
  unfold transportRunAfterEdges at h
  rcases List.mem_append.mp h with h1 | h2
  · rcases List.mem_flatMap.mp h1 with ⟨y, _, hmem⟩
    simp only [List.mem_cons, List.not_mem_nil, or_false, Prod.mk.injEq] at hmem
    rcases hmem with ⟨ha, hb⟩ | ⟨ha, hb⟩ <;> subst ha <;> subst hb <;>
      simp [subtaskRank, transportCombineSubtask]
  · rcases List.mem_map.mp h2 with ⟨p, _, heq⟩
    rw [Prod.mk.injEq] at heq
    obtain ⟨ha, hb⟩ := heq
    subst ha
    subst hb
    simp [subtaskRank, transportCombineSubtask]

/-- C2: for startYear at most endYear, the constructor of TimeSeriesTransport
records run-after constraints where each per-year compute subtask runs after
the masks subtask, the combine subtask runs after each per-year compute
subtask, and each plot subtask runs after the combine subtask; the resulting
dependency graph has no cycle. -/
theorem transport_task_graph_dag (startYear endYear : Nat) (T : List String)
    (h : startYear ≤ endYear) :
    (∀ y ∈ transportYears startYear endYear,
      (Subtask.compute y y, Subtask.masks) ∈
        transportRunAfterEdges startYear endYear T) ∧
    (∀ y ∈ transportYears startYear endYear,
      (transportCombineSubtask startYear endYear, Subtask.compute y y) ∈
        transportRunAfterEdges startYear endYear T) ∧
    (∀ p ∈ List.enum T,
      (Subtask.plot p.2 p.1, transportCombineSubtask startYear endYear) ∈
        transportRunAfterEdges startYear endYear T) ∧
    ¬ HasDependencyCycle (transportRunAfterEdges startYear endYear T) := by
  refine ⟨?_, ?_, ?_, ?_⟩
  · intro y hy
    exact List.mem_append.mpr (Or.inl (List.mem_flatMap.mpr ⟨y, hy, by simp⟩))
  · intro y hy
    exact List.mem_append.mpr (Or.inl (List.mem_flatMap.mpr ⟨y, hy, by simp⟩))
  · intro p hp
    exact List.mem_append.mpr (Or.inr (List.mem_map.mpr ⟨p, hp, rfl⟩))
  · rintro ⟨s, hs⟩
    have key : ∀ x z : Subtask,
        Relation.TransGen (RunsAfterStep (transportRunAfterEdges startYear endYear T)) x z →
        subtaskRank z < subtaskRank x := by
      intro x z hxz
      induction hxz with
      | single hstep => exact rank_lt_of_runAfter _ _ _ _ _ hstep
      | tail _ hstep ih => exact lt_trans (rank_lt_of_runAfter _ _ _ _ _ hstep) ih
    exact lt_irrefl _ (key s s hs)

/-- Witness for C2 at the concrete configuration of years one and two and one
transect. -/
theorem transport_task_graph_dag_witness :
    1 ≤ 2 ∧
    ((∀ y ∈ transportYears 1 2,
        (Subtask.compute y y, Subtask.masks) ∈
          transportRunAfterEdges 1 2 ["Drake Passage"]) ∧
      (∀ y ∈ transportYears 1 2,
        (transportCombineSubtask 1 2, Subtask.compute y y) ∈
          transportRunAfterEdges 1 2 ["Drake Passage"]) ∧
      (∀ p ∈ List.enum ["Drake Passage"],
        (Subtask.plot p.2 p.1, transportCombineSubtask 1 2) ∈
          transportRunAfterEdges 1 2 ["Drake Passage"]) ∧
      ¬ HasDependencyCycle (transportRunAfterEdges 1 2 ["Drake Passage"])) :=
  ⟨by decide, transport_task_graph_dag 1 2 ["Drake Passage"] (by decide)⟩

/-- C4 counterexample: with years one to two and a single transect, no
CombineTransportSubtask is among the subtasks passed to add_subtask, refuting
that the constructor adds one. -/
theorem transport_no_combine_added :
    ((transportAddedSubtasks 1 2 ["Drake Passage"]).filter isCombineSubtask).length = 0 := by
  decide

/-- C4 amended: the constructor passes to add_subtask exactly one masks
subtask, one compute subtask per year (the years being startYear through
endYear, so the k-th covers the single year startYear + k), and one plot
subtask per requested transect; it constructs, but does not add, exactly one
CombineTransportSubtask, whose startYears and endYears both equal the list of
those years. -/
theorem transport_constructor_subtasks (startYear endYear : Nat) (T : List String)
    (h : startYear ≤ endYear) :
    ((transportAddedSubtasks startYear endYear T).filter isMasksSubtask).length = 1 ∧
    (transportAddedSubtasks startYear endYear T).filter isComputeSubtask =
      (transportYears startYear endYear).map (fun y => Subtask.compute y y) ∧
    transportYears startYear endYear =
      (List.range (endYear - startYear + 1)).map (fun k => startYear + k) ∧
    (transportYears startYear endYear).length = endYear - startYear + 1 ∧
    ((transportAddedSubtasks startYear endYear T).filter isCombineSubtask).length = 0 ∧
    transportCombineSubtask startYear endYear =
      Subtask.combine (transportYears startYear endYear)
        (transportYears startYear endYear) ∧
    (transportAddedSubtasks startYear endYear T).filter isPlotSubtask =
      (List.enum T).map (fun p => Subtask.plot p.2 p.1) ∧
    ((transportAddedSubtasks startYear endYear T).filter isPlotSubtask).length =
      T.length := by
  have hn : endYear + 1 - startYear = endYear - startYear + 1 := by omega
  have hyears : transportYears startYear endYear =
      (List.range (endYear - startYear + 1)).map (fun k => startYear + k) := by
    unfold transportYears
    rw [hn, List.range'_eq_map_range]
  refine ⟨?_, ?_, hyears, ?_, ?_, rfl, ?_, ?_⟩
  · simp [transportAddedSubtasks, List.filter_append, List.filter_map,
      isMasksSubtask, Function.comp_def]
  · simp [transportAddedSubtasks, List.filter_append, List.filter_map,
      isComputeSubtask, isMasksSubtask, Function.comp_def]
  · unfold transportYears
    rw [List.length_range', hn]
  · simp [transportAddedSubtasks, List.filter_append, List.filter_map,
      isCombineSubtask, Function.comp_def]
  · simp [transportAddedSubtasks, List.filter_append, List.filter_map,
      isPlotSubtask, Function.comp_def]
  · simp [transportAddedSubtasks, List.filter_append, List.filter_map,
      isPlotSubtask, Function.comp_def]

/-- Witness for C4 amended at the concrete configuration of years one and two
and one transect. -/
theorem transport_constructor_subtasks_witness :
    1 ≤ 2 ∧
    ((transportAddedSubtasks 1 2 ["Drake Passage"]).filter isMasksSubtask).length = 1 ∧
    ((transportAddedSubtasks 1 2 ["Drake Passage"]).filter isComputeSubtask =
      (transportYears 1 2).map (fun y => Subtask.compute y y)) ∧
    ((transportAddedSubtasks 1 2 ["Drake Passage"]).filter isPlotSubtask).length = 1 :=
  ⟨by decide,
    (transport_constructor_subtasks 1 2 ["Drake Passage"] (by decide)).1,
    (transport_constructor_subtasks 1 2 ["Drake Passage"] (by decide)).2.1,
    by decide⟩

/-- Pipeline and specification wording of the transport value agree: the
two-stage variable selection (variableList from the first file, then membership
in the loaded dataset) reduces to the direct presence tests of the claim. -/
theorem transportValue_eq_spec (st : ComputeState) (t maskIndex : Nat) :
    transportValue st t maskIndex = specTransportValue st t maskIndex := by
  unfold transportValue specTransportValue transportVelocity
  cases hTV : (st.inputSlices.head?.getD emptySlice).hasNormalTransportVelocity with
  | true => simp [transportVariableList, hTV]
  | false =>
    cases hGM : (st.inputSlices.head?.getD emptySlice).hasNormalGMBolusVelocity with
    | true => simp [transportVariableList, hTV, hGM]
    | false => simp [transportVariableList, hTV, hGM]

/-- C5: when run_task recomputes, the written transport equals m3ps_to_Sv times
the sum over the nEdges and nVertLevels dimensions of
edgeSign * vel * h * dvEdge, with h the half-sum of layer thickness on the two
adjacent cells and vel the transport velocity when present, else normal plus
Bolus velocity when the latter is present, else the normal velocity; the
written variable carries the units attribute Sv. -/
theorem computeRunTask_transport_formula (st : ComputeState)
    (h : outputValid st = false) :
    ∃ out, computeRunTask st = TaskAction.write out ∧
      out.unitsAttr = "Sv" ∧
      out.transport =
        (List.range st.inputSlices.length).map (fun t =>
          (List.range (selectTransects st.transectsToPlot st.maskTransectNames).1.length).map
            (fun j => specTransportValue st t
              ((selectTransects st.transectsToPlot st.maskTransectNames).1.getD j 0))) := by
  simp only [computeRunTask, h, Bool.false_eq_true, if_false]
  refine ⟨_, rfl, rfl, ?_⟩
  simp only [transportValue_eq_spec]

/-- Witness for C5 at a concrete state with no existing output: the run writes
and the formula applies. -/
theorem computeRunTask_transport_formula_witness :
    outputValid stateB = false ∧
    (∃ out, computeRunTask stateB = TaskAction.write out ∧
      out.unitsAttr = "Sv" ∧
      out.transport =
        (List.range stateB.inputSlices.length).map (fun t =>
          (List.range
              (selectTransects stateB.transectsToPlot stateB.maskTransectNames).1.length).map
            (fun j => specTransportValue stateB t
              ((selectTransects stateB.transectsToPlot stateB.maskTransectNames).1.getD j 0)))) :=
  ⟨rfl, computeRunTask_transport_formula stateB rfl⟩

/-- Transect selection loop, characterized: the kept names are the requested
names that occur among the mask file's names, in request order, and each index
is the position of the first occurrence of the name in the mask file. -/
theorem selectTransects_eq_filter (toPlot names : List String) :
    (selectTransects toPlot names).2 =
      toPlot.filter (fun t => decide (t ∈ names)) ∧
    (selectTransects toPlot names).1 =
      (toPlot.filter (fun t => decide (t ∈ names))).map
        (fun t => (names.findIdx? (fun n => n == t)).getD 0) := by
  induction toPlot with
  | nil => exact ⟨rfl, rfl⟩
  | cons t rest ih =>
    obtain ⟨ih2, ih1⟩ := ih
    cases hf : names.findIdx? (fun n => n == t) with
    | none =>
      have hmem : ¬ t ∈ names := by
        intro hmemt
        have hfalse := List.findIdx?_eq_none_iff.mp hf t hmemt
        simp at hfalse
      constructor
      · have hsel : (selectTransects (t :: rest) names).2 =
            (selectTransects rest names).2 := by
          simp only [selectTransects, hf]
        rw [hsel, List.filter_cons]
        simp [hmem, ih2]
      · have hsel : (selectTransects (t :: rest) names).1 =
            (selectTransects rest names).1 := by
          simp only [selectTransects, hf]
        rw [hsel, List.filter_cons]
        simp [hmem, ih1]
    | some i =>
      have hany : names.any (fun n => n == t) = true := by
        rw [← List.findIdx?_isSome, hf]
        rfl
      have hmem : t ∈ names := by
        rcases List.any_eq_true.mp hany with ⟨x, hx, hxt⟩
        rw [beq_iff_eq] at hxt
        exact hxt ▸ hx
      constructor
      · have hsel : (selectTransects (t :: rest) names).2 =
            t :: (selectTransects rest names).2 := by
          simp only [selectTransects, hf]
        rw [hsel, List.filter_cons]
        simp [hmem, ih2]
      · have hsel : (selectTransects (t :: rest) names).1 =
            i :: (selectTransects rest names).1 := by
          simp only [selectTransects, hf]
        rw [hsel, ih1, List.filter_cons]
        simp [hmem, hf]

/-- C10: when run_task recomputes, the transectNames coordinate written is the
ordered subsequence of transectsToPlot made of the names present in the mask
file, each request resolving to the index of its first occurrence there; a
missing name is skipped and never a failure. -/
theorem computeRunTask_transect_selection (st : ComputeState)
    (h : outputValid st = false) :
    ∃ out, computeRunTask st = TaskAction.write out ∧
      out.transectNames =
        st.transectsToPlot.filter (fun t => decide (t ∈ st.maskTransectNames)) ∧
      (selectTransects st.transectsToPlot st.maskTransectNames).1 =
        (st.transectsToPlot.filter (fun t => decide (t ∈ st.maskTransectNames))).map
          (fun t => (st.maskTransectNames.findIdx? (fun n => n == t)).getD 0) := by
  simp only [computeRunTask, h, Bool.false_eq_true, if_false]
  exact ⟨_, rfl, (selectTransects_eq_filter _ _).1, (selectTransects_eq_filter _ _).2⟩

/-- Witness for C10 at a concrete recomputing state whose requested transect
list has one present and one absent name. -/
theorem computeRunTask_transect_selection_witness :
    outputValid { stateB with transectsToPlot := ["Drake Passage", "Missing Transect"] } =
      false ∧
    (∃ out,
      computeRunTask
          { stateB with transectsToPlot := ["Drake Passage", "Missing Transect"] } =
        TaskAction.write out ∧
      out.transectNames =
        (["Drake Passage", "Missing Transect"].filter
          (fun t => decide (t ∈ stateB.maskTransectNames))) ∧
      (selectTransects ["Drake Passage", "Missing Transect"] stateB.maskTransectNames).1 =
        ((["Drake Passage", "Missing Transect"].filter
            (fun t => decide (t ∈ stateB.maskTransectNames))).map
          (fun t => (stateB.maskTransectNames.findIdx? (fun n => n == t)).getD 0))) :=
  ⟨rfl,
    computeRunTask_transect_selection
      { stateB with transectsToPlot := ["Drake Passage", "Missing Transect"] } rfl⟩

/-- Witness for C8 at the concrete state stateA. -/
theorem computeRunTask_skip_characterization_witness :
    stateA.outputExists = true ∧
    ((computeRunTask stateA = TaskAction.skip ↔
        ∀ tm ∈ stateA.outTimes, ∃ s ∈ stateA.inputSlices,
          s.year = tm.1 ∧ s.month = tm.2) ∧
      (∀ extra : List MonthSlice, computeRunTask stateA = TaskAction.skip →
        computeRunTask { stateA with inputSlices := stateA.inputSlices ++ extra } =
          TaskAction.skip)) :=
  ⟨rfl, computeRunTask_skip_characterization stateA rfl⟩
